import Mathlib

/-!
LRN persistence and history pipeline: a verification development.

Shallow embedding of the core of the LRN repository:

* `lrn/persist.py` — schema migrator (`init_db`, `migrate_1_to_2`,
  `migrate_2_to_3`, `migrate_3_to_4`) and the idempotent upsert API
  (`upsert_instrument`, `upsert_fragment`, `upsert_current`,
  `upsert_snapshot`, `insert_fragment_version_link`).
* `lrn/history.py` — `HistoryCrawler` (`discover_fragment_history_links`,
  `enumerate_versions`, `snapshot`, `crawl_from_fragment`).
* `lrn/cli.py` — `_parse_date_to_yyyymmdd`, `_walk_out_dir`,
  `_import_history_run` and the post-crawl DB sync inside `extract`.

SQLite tables are modelled as Lean lists of row structures; each row id is
allocated from a per-table counter (SQLite `INTEGER PRIMARY KEY` rowid).
The ambient clock (`strftime`/`utc_now`) is passed in explicitly as a
string, and network fetches are modelled as an explicit environment
function returning `none` on failure.  HTML documents are modelled in
already-parsed form (the fields BeautifulSoup queries touch: anchors,
images, nodes addressable by id, body text, and the raw markup).
SHA-256 is modelled as an injective content-addressing stand-in; only
equality of digests is ever consulted by the code under study.
-/

namespace LRN

/-! ## Character and string helpers (Python `str` primitives) -/

/-- ASCII whitespace stripped by Python `str.strip()`. -/
def isPySpace (c : Char) : Bool :=
  c = ' ' || c = '\t' || c = '\n' || c = '\r' || c = '\x0b' || c = '\x0c'

/-- Python `str.strip()` on a character list. -/
def stripChars (l : List Char) : List Char :=
  ((l.dropWhile isPySpace).reverse.dropWhile isPySpace).reverse

/-- All characters are ASCII digits (`\d` over the ASCII inputs in play). -/
def allDigits (l : List Char) : Bool :=
  l.all Char.isDigit

/-- `pre` is an initial segment of the second list (Python `startswith`). -/
def startsWithList : List Char → List Char → Bool
  | [], _ => true
  | _ :: _, [] => false
  | a :: pre, b :: l => a == b && startsWithList pre l

/-- Python `pre in hay` substring test, on character lists. -/
def listContainsSub (needle : List Char) : List Char → Bool
  | [] => needle.isEmpty
  | c :: t => startsWithList needle (c :: t) || listContainsSub needle t

/-- Python `needle in hay` substring test on strings. -/
def containsSub (hay needle : String) : Bool :=
  listContainsSub needle.data hay.data

/-- Python `str.startswith`. -/
def pyStartsWith (s pre : String) : Bool :=
  startsWithList pre.data s.data

/-- Lexicographic comparison of character lists by code point,
Python's `str` ordering. -/
def listLeChar : List Char → List Char → Bool
  | [], _ => true
  | _ :: _, [] => false
  | a :: as, b :: bs => if a = b then listLeChar as bs else decide (a.toNat < b.toNat)

/-- Python `s1 <= s2` on strings. -/
def strLeB (a b : String) : Bool :=
  listLeChar a.data b.data

/-- Stable insertion used by `sortLe`. -/
def insertLe {α : Type} (le : α → α → Bool) (x : α) : List α → List α
  | [] => [x]
  | y :: t => if le x y then x :: y :: t else y :: insertLe le x t

/-- Stable sort (Python `sorted` with a key), as an insertion sort. -/
def sortLe {α : Type} (le : α → α → Bool) (l : List α) : List α :=
  l.foldr (insertLe le) []

/-- Order-preserving de-duplication (the `seen`-set idiom used throughout
`lrn/history.py`). -/
def dedupKeep {α : Type} [BEq α] (l : List α) : List α :=
  (l.foldl (fun acc x => if acc.contains x then acc else acc ++ [x]) [])

/-- `os.path.join a b` for the forward-slash paths built by the crawler. -/
def pathJoin (a b : String) : String :=
  ⟨a.data ++ '/' :: b.data⟩

/-- `os.path.relpath p dir` for paths created by `pathJoin dir _`. -/
def relpathOf (p dir : String) : String :=
  ⟨p.data.drop (dir.data.length + 1)⟩

/-! ## `_parse_date_to_yyyymmdd` (lrn/cli.py lines 782-803)

The Python function tries five anchored regular expressions in order:
eight digits; four digits, separator, two digits, separator, two digits;
two digits, separator, two digits, separator, four digits; six digits;
four digits — where a separator is a dash or a forward slash.  The
candidate shapes have pairwise incompatible lengths except the two
length-10 shapes, which are tried in source order below. -/

/-- A dash-or-slash separator character. -/
def isSep (c : Char) : Bool :=
  c = '-' || c = '/'

/-- `lrn.cli._parse_date_to_yyyymmdd`: normalize a raw legacy date to the
canonical `YYYYMMDD` key, `none` when unparseable. -/
def parse_date_to_yyyymmdd (s : String) : Option String :=
  if s.data = [] then none
  else
    match stripChars s.data with
    | [a, b, c, d, e, f, g, h] =>
      if allDigits [a, b, c, d, e, f, g, h] then some ⟨[a, b, c, d, e, f, g, h]⟩
      else none
    | [x0, x1, x2, x3, x4, x5, x6, x7, x8, x9] =>
      if allDigits [x0, x1, x2, x3] && isSep x4 && allDigits [x5, x6] && isSep x7
          && allDigits [x8, x9] then
        some ⟨[x0, x1, x2, x3, x5, x6, x8, x9]⟩
      else if allDigits [x0, x1] && isSep x2 && allDigits [x3, x4] && isSep x5
          && allDigits [x6, x7, x8, x9] then
        some ⟨[x6, x7, x8, x9, x3, x4, x0, x1]⟩
      else none
    | [a, b, c, d, e, f] =>
      if allDigits [a, b, c, d, e, f] then some ⟨[a, b, c, d, e, f, '0', '1']⟩
      else none
    | [a, b, c, d] =>
      if allDigits [a, b, c, d] then some ⟨[a, b, c, d, '0', '1', '0', '1']⟩
      else none
    | _ => none

/-! ## Store model (lrn/persist.py)

Tables are lists of row structures; row ids come from per-table counters,
modelling SQLite rowid allocation on an append-only table.  Every upsert
commits immediately in the source, so the Lean functions simply return the
updated database value.  Timestamps (`strftime(..,'now')` defaults and
`utc_now()`) enter as an explicit `now` argument. -/

structure InstrumentRow where
  id : Nat
  name : String
  source_url : Option String
  created_at : String
  updated_at : String
  metadata_json : Option String
deriving DecidableEq

structure FragmentRow where
  id : Nat
  instrument_id : Nat
  code : String
  created_at : String
  updated_at : String
  metadata_json : Option String
deriving DecidableEq

structure CurrentRow where
  id : Nat
  fragment_id : Nat
  url : Option String
  content_text : String
  content_hash : String
  extracted_at : String
  metadata_json : Option String
deriving DecidableEq

structure SnapshotRow where
  id : Nat
  fragment_id : Nat
  date : String
  url : Option String
  content_text : String
  content_hash : String
  retrieved_at : Option String
  etag : Option String
  last_modified : Option String
  metadata_json : Option String
deriving DecidableEq

structure LinkRow where
  id : Nat
  from_fragment_id : Nat
  to_snapshot_id : Nat
  link_type : String
  created_at : Option String
deriving DecidableEq

structure DB where
  instruments : List InstrumentRow
  fragments : List FragmentRow
  current_pages : List CurrentRow
  snapshots : List SnapshotRow
  fragment_links : List LinkRow
  nextInstrumentId : Nat
  nextFragmentId : Nat
  nextCurrentId : Nat
  nextSnapshotId : Nat
  nextLinkId : Nat
deriving DecidableEq

def emptyDB : DB :=
  ⟨[], [], [], [], [], 1, 1, 1, 1, 1⟩

/-- SQL `COALESCE(a, b)` for two nullable text values. -/
def coalesce (a b : Option String) : Option String :=
  match a with
  | some x => some x
  | none => b

/-- Injective content-addressing stand-in for `lrn.persist.sha256_hex`.
Only equality of digests is consulted by the code under study, and digest
equality under this stand-in coincides with content equality exactly as
it does (collisions aside) for SHA-256. -/
def sha256_hex (text : String) : String :=
  "sha256:" ++ text

/-- `lrn.persist.upsert_instrument`: insert by natural key `name`;
`ON CONFLICT(name) DO UPDATE` overwrites `source_url`, coalesces
`metadata_json`, stamps `updated_at`; then the surrogate id is selected
back by name. -/
def upsert_instrument (db : DB) (now : String) (name : String)
    (source_url metadata_json : Option String) : DB × Nat :=
  match db.instruments.find? (fun r => r.name == name) with
  | some r =>
    let r' : InstrumentRow :=
      { r with source_url := source_url
               metadata_json := coalesce metadata_json r.metadata_json
               updated_at := now }
    ({ db with instruments := db.instruments.map fun q => if q.name == name then r' else q },
     r.id)
  | none =>
    let r : InstrumentRow :=
      { id := db.nextInstrumentId, name := name, source_url := source_url,
        created_at := now, updated_at := now, metadata_json := metadata_json }
    ({ db with instruments := db.instruments ++ [r]
               nextInstrumentId := db.nextInstrumentId + 1 },
     r.id)

/-- `lrn.persist.upsert_fragment`: insert by natural key
`(instrument_id, code)` with `ON CONFLICT DO NOTHING`, then select the id
back.  On conflict the stored row is untouched — the supplied
`metadata_json` is discarded. -/
def upsert_fragment (db : DB) (now : String) (instrument_id : Nat) (code : String)
    (metadata_json : Option String) : DB × Nat :=
  match db.fragments.find? (fun r => r.instrument_id == instrument_id && r.code == code) with
  | some r => (db, r.id)
  | none =>
    let r : FragmentRow :=
      { id := db.nextFragmentId, instrument_id := instrument_id, code := code,
        created_at := now, updated_at := now, metadata_json := metadata_json }
    ({ db with fragments := db.fragments ++ [r]
               nextFragmentId := db.nextFragmentId + 1 },
     r.id)

/-- `lrn.persist.upsert_current`: insert by unique `fragment_id`;
`ON CONFLICT DO UPDATE` overwrites url/content/hash/extracted_at and
coalesces `metadata_json`. -/
def upsert_current (db : DB) (fragment_id : Nat) (url : Option String)
    (content_text content_hash extracted_at : String)
    (metadata_json : Option String) : DB :=
  match db.current_pages.find? (fun r => r.fragment_id == fragment_id) with
  | some r =>
    let r' : CurrentRow :=
      { r with url := url
               content_text := content_text
               content_hash := content_hash
               extracted_at := extracted_at
               metadata_json := coalesce metadata_json r.metadata_json }
    { db with current_pages :=
        db.current_pages.map fun q => if q.fragment_id == fragment_id then r' else q }
  | none =>
    let r : CurrentRow :=
      { id := db.nextCurrentId, fragment_id := fragment_id, url := url,
        content_text := content_text, content_hash := content_hash,
        extracted_at := extracted_at, metadata_json := metadata_json }
    { db with current_pages := db.current_pages ++ [r]
              nextCurrentId := db.nextCurrentId + 1 }

/-- `lrn.persist.upsert_snapshot`: insert by unique `(fragment_id, date)`;
`ON CONFLICT DO UPDATE` unconditionally overwrites url, content_text,
content_hash and retrieved_at with the excluded (new) values and coalesces
etag, last_modified and metadata_json.  The update is not gated on the
content hash. -/
def upsert_snapshot (db : DB) (fragment_id : Nat) (date : String) (url : Option String)
    (content_text content_hash : String)
    (retrieved_at etag last_modified metadata_json : Option String) : DB :=
  match db.snapshots.find? (fun r => r.fragment_id == fragment_id && r.date == date) with
  | some r =>
    let r' : SnapshotRow :=
      { r with url := url
               content_text := content_text
               content_hash := content_hash
               retrieved_at := retrieved_at
               etag := coalesce etag r.etag
               last_modified := coalesce last_modified r.last_modified
               metadata_json := coalesce metadata_json r.metadata_json }
    { db with snapshots :=
        db.snapshots.map fun q =>
          if q.fragment_id == fragment_id && q.date == date then r' else q }
  | none =>
    let r : SnapshotRow :=
      { id := db.nextSnapshotId, fragment_id := fragment_id, date := date, url := url,
        content_text := content_text, content_hash := content_hash,
        retrieved_at := retrieved_at, etag := etag, last_modified := last_modified,
        metadata_json := metadata_json }
    { db with snapshots := db.snapshots ++ [r]
              nextSnapshotId := db.nextSnapshotId + 1 }

/-- `lrn.persist.insert_fragment_version_link`: insert with
`ON CONFLICT(from_fragment_id, to_snapshot_id, link_type) DO NOTHING`,
then select the id back. -/
def insert_fragment_version_link (db : DB) (from_fragment_id to_snapshot_id : Nat)
    (link_type : String) (created_at : Option String) : DB × Nat :=
  match db.fragment_links.find? (fun r =>
      r.from_fragment_id == from_fragment_id && r.to_snapshot_id == to_snapshot_id
        && r.link_type == link_type) with
  | some r => (db, r.id)
  | none =>
    let r : LinkRow :=
      { id := db.nextLinkId, from_fragment_id := from_fragment_id,
        to_snapshot_id := to_snapshot_id, link_type := link_type,
        created_at := created_at }
    ({ db with fragment_links := db.fragment_links ++ [r]
               nextLinkId := db.nextLinkId + 1 },
     r.id)

/-! ## Schema migrator (lrn/persist.py `init_db` and migrations)

The store is modelled by its `PRAGMA user_version` marker and the set of
created tables (in creation order); `CREATE TABLE IF NOT EXISTS` becomes
an add-if-absent on that list. -/

structure Store where
  version : Nat
  tables : List String
deriving DecidableEq

/-- `CREATE TABLE IF NOT EXISTS` semantics for a batch of tables. -/
def addTables (ts new : List String) : List String :=
  new.foldl (fun acc n => if acc.contains n then acc else acc ++ [n]) ts

/-- Baseline schema v1 created when `user_version` reads 0
(persist.py lines 292-372): tables, then `PRAGMA user_version = 1`. -/
def create_schema_v1 (s : Store) : Store :=
  { version := 1,
    tables := addTables s.tables
      ["instruments", "fragments", "current_pages", "historical_fragments",
       "fragment_changes"] }

/-- `lrn.persist.migrate_1_to_2`: additive tables and columns, then
`PRAGMA user_version = 2`. -/
def migrate_1_to_2 (s : Store) : Store :=
  { version := 2,
    tables := addTables s.tables
      ["jurisdictions", "snapshots", "tags", "fragment_tags", "fragment_links"] }

/-- `lrn.persist.migrate_2_to_3`: annexes, jurisdictions/tags minimal
shapes, fragment_links v3 shape, then `PRAGMA user_version = 3`. -/
def migrate_2_to_3 (s : Store) : Store :=
  { version := 3,
    tables := addTables s.tables
      ["annexes", "jurisdictions", "tags", "fragment_tags", "fragment_links"] }

/-- `lrn.persist.migrate_3_to_4`: historical_fragments and
fragment_changes, then `PRAGMA user_version = 4`. -/
def migrate_3_to_4 (s : Store) : Store :=
  { version := 4,
    tables := addTables s.tables ["historical_fragments", "fragment_changes"] }

/-- `lrn.persist.init_db`, modelled with the Python local variable
`user_version` made explicit: the local is refreshed from the store only
after the 1→2 migration (persist.py lines 377-380).  After
`migrate_2_to_3` runs (line 384) the stale local — still 2 — is compared
against 3 (line 386), so `migrate_3_to_4` is reached only when the store
was already at version 3 when opened. -/
def init_db (s0 : Store) : Store :=
  let uv0 := s0.version
  let p1 : Store × Nat := if uv0 = 0 then (create_schema_v1 s0, 1) else (s0, uv0)
  let p2 : Store × Nat :=
    if p1.2 = 1 then
      let t := migrate_1_to_2 p1.1
      (t, t.version)
    else p1
  let s3 := if p2.2 = 2 then migrate_2_to_3 p2.1 else p2.1
  let s4 := if p2.2 = 3 then migrate_3_to_4 s3 else s3
  s4

/-! ## History crawler (lrn/history.py)

HTML documents enter the model already parsed, carrying exactly the
structure the BeautifulSoup queries in the source consult: history-marked
images with their enclosing anchor, anchors with href and class list,
nodes addressable by element id, the whitespace-joined body text, and the
raw markup.  The network (`requests` session plus the on-disk response
cache) is an explicit environment `web : String → Option Page`; `none`
models a raised fetch error.  The ambient `time.strftime('%Y%m%d')` clock
is the explicit argument `today`. -/

structure Anchor where
  href : String
  classes : List String
deriving DecidableEq

structure Img where
  src : String
  parentAnchorHref : Option String
deriving DecidableEq

structure Page where
  imgs : List Img
  anchors : List Anchor
  idNodes : List (String × String)
  bodyText : String
  raw : String
deriving DecidableEq

structure VersionEntry where
  date : String
  href : String
deriving DecidableEq

structure IndexEntry where
  date : String
  path : String
deriving DecidableEq

structure SnapFile where
  path : String
  content : String
deriving DecidableEq

structure Crawler where
  base_url : String
  max_dates : Option Int
  web : String → Option Page

/-- `HistoryCrawler.discover_fragment_history_links`: anchors enclosing an
image whose src mentions `history`, then anchors whose href carries a
`historique` marker or whose class list carries `HistoryLink`;
de-duplicated preserving order. -/
def discover_fragment_history_links (p : Page) : List String :=
  let links1 := (p.imgs.filter fun i => containsSub i.src "history").filterMap
    (fun i => i.parentAnchorHref)
  let links2 := (p.anchors.filter fun a =>
    containsSub a.href "historique=" || containsSub a.href "historique"
      || a.classes.any fun cl => containsSub cl "HistoryLink").map (fun a => a.href)
  dedupKeep (links1 ++ links2)

/-- `HistoryCrawler._resolve_url`.  `urljoin(base_url + '/', href)` is
modelled for the plain relative hrefs exercised here (no dot segments, no
leading slash): it prepends `base_url ++ "/"`.  Absolute hrefs and the
empty base pass through unchanged, as in the source. -/
def resolve_url (base_url href : String) : String :=
  if base_url ≠ "" && !(pyStartsWith href "http://" || pyStartsWith href "https://") then
    base_url ++ "/" ++ href
  else href

/-- Match of the regex `(?:#|/)(\d{8})(?:$|\b|_)` anchored at the head of
the list: a hash or slash, eight digits, then end of input or a non-word
character (the explicit underscore alternative is subsumed, an underscore
not being alphanumeric). -/
def ymdHere : List Char → Option (List Char)
  | p :: rest =>
    if p = '#' || p = '/' then
      match rest with
      | a :: b :: c :: d :: e :: f :: g :: h :: tail =>
        if allDigits [a, b, c, d, e, f, g, h] then
          match tail with
          | [] => some [a, b, c, d, e, f, g, h]
          | x :: _ => if x.isAlphanum then none else some [a, b, c, d, e, f, g, h]
        else none
      | _ => none
    else none
  | [] => none

/-- `re.search` for the pattern above: first match over start positions,
scanning left to right. -/
def searchYmd : List Char → Option (List Char)
  | [] => none
  | c :: t =>
    match ymdHere (c :: t) with
    | some r => some r
    | none => searchYmd t

/-- `HistoryCrawler.enumerate_versions`: fetch the listing page (an error
yields `[]`), collect anchors carrying an 8-digit date token; if none,
fall back to anchors carrying a `historique=` parameter as dateless
(`"unknown"`) entries; de-duplicate by (date, href); truncate to
`max_dates` when set and non-negative.  There is no further fallback: when
both scans find nothing the result is the empty list. -/
def enumerate_versions (c : Crawler) (history_link_url : String) : List VersionEntry :=
  match c.web (resolve_url c.base_url history_link_url) with
  | none => []
  | some page =>
    let items := page.anchors.filterMap fun a =>
      match searchYmd a.href.data with
      | some ymd => some (⟨⟨ymd⟩, a.href⟩ : VersionEntry)
      | none => none
    let items :=
      if items.isEmpty then
        page.anchors.filterMap fun a =>
          if containsSub a.href "historique=" then some (⟨"unknown", a.href⟩ : VersionEntry)
          else none
      else items
    let uniq := dedupKeep items
    match c.max_dates with
    | some m => if 0 ≤ m then uniq.take m.toNat else uniq
    | none => uniq

/-- Characters kept by the sanitizer in
`HistoryCrawler._fragment_code_from_history_href`. -/
def okCodeChar (c : Char) : Bool :=
  c.isAlphanum || c = ':' || c = '_' || c = '-'

/-- `re.sub` of runs of characters outside `[A-Za-z0-9:_-]` by a single
underscore; the flag records whether the previous character already
belonged to such a run. -/
def sanitizeAux : Bool → List Char → List Char
  | _, [] => []
  | prevBad, c :: t =>
    if okCodeChar c then c :: sanitizeAux false t
    else if prevBad then sanitizeAux true t
    else '_' :: sanitizeAux true t

def sanitizeChars (l : List Char) : List Char :=
  sanitizeAux false l

/-- Tail after the first occurrence of a character, `none` when absent. -/
def afterChar (c : Char) : List Char → Option (List Char)
  | [] => none
  | x :: t => if x = c then some t else afterChar c t

/-- Segment before the first occurrence of a character. -/
def beforeChar (c : Char) : List Char → List Char
  | [] => []
  | x :: t => if x = c then [] else x :: beforeChar c t

/-- Python `s.split('&')`. -/
def splitAmp : List Char → List (List Char)
  | [] => [[]]
  | c :: t =>
    if c = '&' then [] :: splitAmp t
    else
      match splitAmp t with
      | [] => [[c]]
      | g :: gs => (c :: g) :: gs

/-- `HistoryCrawler._fragment_code_from_history_href`: first value of the
`code` query parameter of the href (`urlparse` splits the fragment off at
the first hash, `parse_qs` splits on ampersands and drops blank values;
percent-decoding is not modelled, the codes in play being plain), then
sanitized; defaults to `"se:1"`. -/
def fragment_code_from_history_href (href : String) : String :=
  let pre := beforeChar '#' href.data
  let query :=
    match afterChar '?' pre with
    | some q => q
    | none => []
  let vals := (splitAmp query).filterMap fun seg =>
    match afterChar '=' seg with
    | some v => if beforeChar '=' seg = "code".data && v ≠ [] then some v else none
    | none => none
  match vals with
  | v :: _ => ⟨sanitizeChars v⟩
  | [] => "se:1"

/-- `HistoryCrawler._extract_fragment_html` over a parsed page: the node
with the matching id when present; else, when the body text carries one of
the offline placeholder markers, a minimal section wrapper around the body
text; else a minimal section wrapper around the whole raw markup. -/
def extract_fragment_html (p : Page) (fragment_code : String) : String :=
  match p.idNodes.find? (fun kv => kv.1 == fragment_code) with
  | some kv => kv.2
  | none =>
    if containsSub p.bodyText "HIST FR 8.2" || containsSub p.bodyText "HIST FR 22"
        || containsSub p.bodyText "HIST EN 10" then
      let frag := if pyStartsWith fragment_code "se:" then fragment_code else "se:1"
      "<div id=\"" ++ frag ++ "\">" ++ p.bodyText ++ "</div>"
    else
      let frag := if pyStartsWith fragment_code "se:" then fragment_code else "se:1"
      "<div id=\"" ++ frag ++ "\">" ++ p.raw ++ "</div>"

/-- The page `HistoryCrawler.snapshot` synthesizes when the fetch raises,
in parsed form: the parse of
`"<html><body>Snapshot " ++ date ++ "</body></html>"` has no
id-addressable nodes, no anchors and no images. -/
def placeholderPage (date : String) : Page :=
  { imgs := [], anchors := [], idNodes := [],
    bodyText := "Snapshot " ++ date,
    raw := "<html><body>Snapshot " ++ date ++ "</body></html>" }

/-- The regex `^\d{8}$` guarding the snapshot filename. -/
def isYmd8 (s : String) : Bool :=
  s.data.length == 8 && allDigits s.data

/-- `HistoryCrawler.snapshot`: resolve and fetch the href; when the fetch
raises, fall back to the synthesized placeholder page; extract the
fragment-scoped markup; write it under
`instrument_dir/history/{fragment_code}/{safe_date}.html` and return that
path together with the written content.  The function never returns
`none`: a fetch failure still produces a snapshot file. -/
def snapshot (c : Crawler) (instrument_dir fragment_code date href today : String) :
    Option SnapFile :=
  let url := resolve_url c.base_url href
  let html : Page :=
    match c.web url with
    | some p => p
    | none => placeholderPage date
  let frag_code := if pyStartsWith fragment_code "se:" then fragment_code else "se:1"
  let frag_html := extract_fragment_html html frag_code
  let d := pathJoin (pathJoin instrument_dir "history") fragment_code
  let safe_date := if isYmd8 date then date else today
  some { path := pathJoin d (safe_date ++ ".html"), content := frag_html }

/-- The inner loop of `crawl_from_fragment` over the enumerated versions
of one history link: snapshot each one, recording `{date, relative path}`
for every version whose snapshot call returned a path, and accumulate the
files written. -/
def snapshot_loop (c : Crawler) (instrument_dir frag_code today : String)
    (versions : List VersionEntry) : List IndexEntry × List SnapFile :=
  versions.foldl
    (fun st it =>
      match snapshot c instrument_dir frag_code it.date it.href today with
      | some f => (st.1 ++ [⟨it.date, relpathOf f.path instrument_dir⟩], st.2 ++ [f])
      | none => st)
    ([], [])

/-- Python dict assignment `m[k] = v`, preserving insertion order. -/
def dictSet {α : Type} (m : List (String × α)) (k : String) (v : α) :
    List (String × α) :=
  if m.any (fun kv => kv.1 == k) then m.map fun kv => if kv.1 == k then (k, v) else kv
  else m ++ [(k, v)]

/-- `HistoryCrawler.crawl_from_fragment`: discover the history links of a
fragment, snapshot every enumerated version, and build the history index
mapping fragment code to entries.  When the index would be empty, write
one synthetic placeholder snapshot under `se:1` dated `today` and index it
exactly like a real entry.  Returns the index — the content `build_index`
serializes to `history/index.json` — together with the snapshot files
written. -/
def crawl_from_fragment (c : Crawler) (instrument_dir : String) (fragment : Page)
    (today : String) : List (String × List IndexEntry) × List SnapFile :=
  let links := discover_fragment_history_links fragment
  let acc := links.foldl
    (fun (acc : List (String × List IndexEntry) × List SnapFile) link =>
      let frag_code := fragment_code_from_history_href link
      let versions := enumerate_versions c link
      let res := snapshot_loop c instrument_dir frag_code today versions
      (if res.1.isEmpty then acc.1 else dictSet acc.1 frag_code res.1,
       acc.2 ++ res.2))
    ([], [])
  if acc.1.isEmpty then
    let path := pathJoin (pathJoin (pathJoin instrument_dir "history") "se:1")
      (today ++ ".html")
    let f : SnapFile := ⟨path, "<div id=\"se:1\">HIST FR 8.2</div>"⟩
    ([("se:1", [⟨today, relpathOf path instrument_dir⟩])], acc.2 ++ [f])
  else acc

/-! ## Import paths (lrn/cli.py)

An out-dir on disk is one `InstDirData` per instrument directory: the
directory name, the content of `current.xhtml` when present, the parsed
`history/index.json`, and the snapshot files keyed by their path relative
to the instrument directory (reading `path_abs` in the source is looking
up that relative path here). -/

structure InstDirData where
  name : String
  current : Option String
  indexJson : List (String × List IndexEntry)
  files : List (String × String)

structure WalkItem where
  instrument : String
  current : Option String
  history : List (String × List IndexEntry)
  files : List (String × String)

/-- `lrn.cli._walk_out_dir`: instruments in sorted directory-name order;
for each, the normalized `history/index.json` — entries lacking a date or
a path dropped, fragment codes iterated in sorted order, each entry list
sorted by date ascending. -/
def walk_out_dir (out_dir : List InstDirData) : List WalkItem :=
  (sortLe (fun a b => strLeB a.name b.name) out_dir).map fun d =>
    { instrument := d.name
      current := d.current
      history :=
        (sortLe strLeB (d.indexJson.map Prod.fst)).map fun k =>
          (k,
           sortLe (fun x y => strLeB x.date y.date)
             ((((d.indexJson.find? fun kv => kv.1 == k).map Prod.snd).getD []).filter
               fun e => e.date ≠ "" && e.path ≠ ""))
      files := d.files }

inductive PyError
  | nameError (name : String)
deriving DecidableEq

/-- The lookup of the name `base_url`, free in `_import_history_run` and
used at lrn/cli.py line 994.  `lrn/cli.py` contains no module-level
assignment to `base_url` and no `global base_url`, so the lookup fails and
evaluating the name raises `NameError`. -/
def lookup_base_url : Option String :=
  none

/-- `lrn.cli._is_legisquebec_host`, modelled to the extent the import path
exercises it: a missing url (`None`, falsy) yields `false`; otherwise the
LegisQuébec host-suffix test. -/
def is_legisquebec_host : Option String → Bool
  | none => false
  | some u => containsSub u "legisquebec.gouv.qc.ca"

/-- The per-fragment history import loop of `_import_history_run`
(lrn/cli.py lines 1011-1033): for each fragment code of the walked history
map in sorted order, upsert the fragment, then for each entry read the
snapshot file — skipping the entry when the read fails — upsert the
snapshot by `(fragment_id, date)` and insert the `"version"` link to the
stored snapshot row. -/
def import_histories (db : DB) (now : String) (instrument_id : Nat)
    (hist : List (String × List IndexEntry)) (files : List (String × String)) : DB :=
  (sortLe strLeB (hist.map Prod.fst)).foldl
    (fun db fc =>
      let p := upsert_fragment db now instrument_id fc none
      (((hist.find? fun kv => kv.1 == fc).map Prod.snd).getD []).foldl
        (fun db e =>
          match (files.find? fun kv => kv.1 == e.path).map Prod.snd with
          | none => db
          | some html =>
            let db1 := upsert_snapshot db p.2 e.date none html (sha256_hex html)
              (some now) none none none
            match db1.snapshots.find? fun r =>
                r.fragment_id == p.2 && r.date == e.date with
            | some srow =>
              (insert_fragment_version_link db1 p.2 srow.id "version" (some now)).1
            | none => db1)
        p.1)
    db

/-- The apply-mode loop of `lrn.cli._import_history_run` (lines 980-1035)
over the walked instruments.  Each iteration upserts the instrument (the
row commits immediately); the jurisdiction wiring at lines 987-993 is
guarded by `_is_legisquebec_host(source_url)` with `source_url = None` and
is skipped; then line 994 evaluates the free variable `base_url`, raising
`NameError` and aborting the run with the rows committed so far.  The rest
of the loop body — current-page import (lines 1002-1010) and the history
ingestion (lines 1011-1033) — is modelled under the branch in which that
lookup would succeed, which is dead in this program. -/
def import_items (now : String) : DB → List WalkItem → DB × Option PyError
  | db, [] => (db, none)
  | db, it :: rest =>
    let p := upsert_instrument db now it.instrument none none
    match lookup_base_url with
    | none => (p.1, some (PyError.nameError "base_url"))
    | some _b =>
      let db2 :=
        match it.current with
        | some html =>
          let q := upsert_fragment p.1 now p.2 "se:1" none
          upsert_current q.1 q.2 none html (sha256_hex html) now none
        | none => p.1
      let db3 := import_histories db2 now p.2 it.history it.files
      import_items now db3 rest

/-- `lrn.cli._import_history_run` in apply mode: open the store, walk the
out-dir, and run the import loop.  The second component reports the Python
exception that aborted the run, if any. -/
def import_history_run (db : DB) (now : String) (out_dir : List InstDirData) :
    DB × Option PyError :=
  import_items now db (walk_out_dir out_dir)

/-- One entry of the post-crawl history sync inside `extract`
(lrn/cli.py lines 1779-1805): skip entries lacking a date or a path, read
the snapshot file at `inst_dir/<relative path>` — skipping the entry when
the read fails — upsert the snapshot, then insert the `"version"` link to
the stored snapshot row.  `files` is keyed by absolute path, matching the
`os.path.join(inst_dir, rel_path)` the source opens. -/
def sync_entry (db : DB) (now inst_dir : String) (frag_id : Nat)
    (files : List (String × String)) (e : IndexEntry) : DB :=
  if e.date = "" || e.path = "" then db
  else
    match (files.find? fun kv => kv.1 == pathJoin inst_dir e.path).map Prod.snd with
    | none => db
    | some html =>
      let db1 := upsert_snapshot db frag_id e.date none html (sha256_hex html)
        (some now) none none none
      match db1.snapshots.find? fun r => r.fragment_id == frag_id && r.date == e.date with
      | some srow => (insert_fragment_version_link db1 frag_id srow.id "version" (some now)).1
      | none => db1

/-- The post-crawl history sync inside `extract`
(lrn/cli.py lines 1764-1817): for every fragment of the on-disk
`history/index.json`, in index order, upsert the fragment and import each
of its entries via `sync_entry`. -/
def post_crawl_sync (db : DB) (now inst_dir : String) (instrument_id : Nat)
    (index : List (String × List IndexEntry)) (files : List (String × String)) : DB :=
  index.foldl
    (fun db kv =>
      let p := upsert_fragment db now instrument_id kv.1 none
      kv.2.foldl (fun db e => sync_entry db now inst_dir p.2 files e) p.1)
    db

/-- Count of `fragment_links` rows of a given type originating at a
fragment. -/
def linkCount (db : DB) (frag_id : Nat) (t : String) : Nat :=
  (db.fragment_links.filter fun r => r.from_fragment_id == frag_id && r.link_type == t).length

/-- Number of distinct dates listed for a fragment code in an on-disk
history index. -/
def distinctDates (index : List (String × List IndexEntry)) (code : String) : Nat :=
  (dedupKeep ((((index.find? fun kv => kv.1 == code).map Prod.snd).getD []).map
    IndexEntry.date)).length

/-! ## Concrete fixtures -/

/-- A parsed fragment page with no history links at all. -/
def emptyFragmentPage : Page :=
  ⟨[], [], [], "", ""⟩

/-- A crawler whose every fetch raises (fully offline). -/
def offlineCrawler : Crawler :=
  ⟨"", none, fun _ => none⟩

/-- A listing page with a single anchor carrying neither an 8-digit date
token nor a date query parameter. -/
def noDatePage : Page :=
  ⟨[], [⟨"foo.html", []⟩], [], "", ""⟩

/-- A crawler serving `noDatePage` for every url. -/
def noDateCrawler : Crawler :=
  ⟨"", none, fun _ => some noDatePage⟩

/-- The history index of the import fixture used by
`tests/test_cli_db_import_history.py`: two dated entries for `se:1`. -/
def fixtureIndex : List (String × List IndexEntry) :=
  [("se:1", [⟨"20200101", "history/se:1/20200101.html"⟩,
             ⟨"20240229", "history/se:1/20240229.html"⟩])]

/-- The full import fixture out-dir: one instrument directory with
`current.xhtml`, the two-entry index, and both snapshot files present. -/
def fixtureOutDir : List InstDirData :=
  [{ name := "instrumentA",
     current := some "<div id=\"se:1\"><h1>Instrument A</h1></div>",
     indexJson := fixtureIndex,
     files := [("history/se:1/20200101.html", "<div id=\"se:1\">A-20200101</div>"),
               ("history/se:1/20240229.html", "<div id=\"se:1\">A-20240229</div>")] }]

/-- A store holding one instrument (id 1) and one fragment
(id 1, code `se:1`). -/
def dbWithFragment : DB :=
  (upsert_fragment (upsert_instrument emptyDB "T0" "instA" none none).1 "T0" 1 "se:1" none).1

/-- First snapshot upsert at `(1, "20200101")`, retrieved at `T1`. -/
def c4_first : DB :=
  upsert_snapshot dbWithFragment 1 "20200101" none "body" (sha256_hex "body")
    (some "T1") none none none

/-- Re-upsert of the identical content at the same `(fragment, date)`,
retrieved at `T2`. -/
def c4_second : DB :=
  upsert_snapshot c4_first 1 "20200101" none "body" (sha256_hex "body")
    (some "T2") none none none

/-- First instrument upsert: source url `http://a`, metadata `m1`. -/
def c5_first : DB × Nat :=
  upsert_instrument emptyDB "T1" "inst" (some "http://a") (some "m1")

/-- Second upsert of the same name: source url `http://b`, no metadata. -/
def c5_second : DB × Nat :=
  upsert_instrument c5_first.1 "T2" "inst" (some "http://b") none

/-- A store holding instrument 1 and fragment (1, `se:2`) with stored
metadata `m0`. -/
def c9_db : DB :=
  (upsert_fragment (upsert_instrument emptyDB "T0" "instA" none none).1 "T0" 1 "se:2"
    (some "m0")).1

/-- A fully offline crawl of a fragment with no history links: zero
versions are discovered and the placeholder machinery fires. -/
def c2_crawl : List (String × List IndexEntry) × List SnapFile :=
  crawl_from_fragment offlineCrawler "out/instA" emptyFragmentPage "20250101"

/-- The pipeline composition the post-crawl sync realizes: upsert one
instrument into an empty store, crawl a fragment, then sync the crawl's
own output (its index and its written files) into the store. -/
def import_crawl_output (c : Crawler) (dir today name t0 t1 : String)
    (fragment : Page) : DB :=
  post_crawl_sync (upsert_instrument emptyDB t0 name none none).1 t1 dir
    (upsert_instrument emptyDB t0 name none none).2
    (crawl_from_fragment c dir fragment today).1
    ((crawl_from_fragment c dir fragment today).2.map fun f => (f.path, f.content))

/-- Importing that crawl's output through the post-crawl sync of
`extract`, after upserting the instrument. -/
def c2_db : DB :=
  import_crawl_output offlineCrawler "out/instA" "20250101" "instA" "T0" "T1"
    emptyFragmentPage

/-! ## Helper lemmas -/

theorem isPySpace_eq_false_of_isDigit {c : Char} (h : c.isDigit = true) :
    isPySpace c = false := by
  by_contra hne
  have hsp : isPySpace c = true := by
    revert hne
    cases isPySpace c <;> simp
  have hcases : ((((c = ' ' ∨ c = '\t') ∨ c = '\n') ∨ c = '\r') ∨ c = '\x0b') ∨ c = '\x0c' := by
    simpa [isPySpace, decide_eq_true_eq] using hsp
  rcases hcases with ((((rfl | rfl) | rfl) | rfl) | rfl) | rfl <;> exact absurd h (by decide)

theorem dropWhile_isPySpace_of_digits (l : List Char) (h : allDigits l = true) :
    l.dropWhile isPySpace = l := by
  cases l with
  | nil => rfl
  | cons c t =>
    have hc : c.isDigit = true := by
      have := (List.all_eq_true.mp h) c (by simp)
      simpa using this
    simp [List.dropWhile, isPySpace_eq_false_of_isDigit hc]

theorem allDigits_reverse (l : List Char) (h : allDigits l = true) :
    allDigits l.reverse = true := by
  simp only [allDigits, List.all_eq_true] at h ⊢
  intro c hc
  exact h c (List.mem_reverse.mp hc)

theorem stripChars_of_digits (l : List Char) (h : allDigits l = true) :
    stripChars l = l := by
  rw [stripChars, dropWhile_isPySpace_of_digits l h,
      dropWhile_isPySpace_of_digits l.reverse (allDigits_reverse l h),
      List.reverse_reverse]

theorem find?_append_of_none {α : Type} {p : α → Bool} {l₁ : List α} (l₂ : List α)
    (h : l₁.find? p = none) : (l₁ ++ l₂).find? p = l₂.find? p := by
  induction l₁ with
  | nil => rfl
  | cons a t ih =>
    have hpa : p a = false := by
      by_contra hne
      have : p a = true := by revert hne; cases p a <;> simp
      simp [List.find?, this] at h
    have ht : t.find? p = none := by
      simpa [List.find?, hpa] using h
    simp [List.find?, hpa, ih ht]

theorem map_update_of_none {α : Type} {p : α → Bool} {l : List α} (r' : α)
    (h : l.find? p = none) : (l.map fun q => if p q then r' else q) = l := by
  induction l with
  | nil => rfl
  | cons a t ih =>
    have hpa : p a = false := by
      by_contra hne
      have : p a = true := by revert hne; cases p a <;> simp
      simp [List.find?, this] at h
    have ht : t.find? p = none := by
      simpa [List.find?, hpa] using h
    simp [hpa, ih ht]

theorem find?_map_update {α : Type} {p : α → Bool} {l : List α} (r' : α)
    (hp : p r' = true) (hl : (l.find? p).isSome = true) :
    (l.map fun q => if p q then r' else q).find? p = some r' := by
  induction l with
  | nil => simp [List.find?] at hl
  | cons a t ih =>
    by_cases ha : p a = true
    · simp [ha, List.find?, hp]
    · have ha' : p a = false := by revert ha; cases p a <;> simp
      have ht : (t.find? p).isSome = true := by
        simpa [List.find?, ha'] using hl
      simp [ha', List.find?, ih ht]

theorem pathJoin_assoc (a b c : String) :
    pathJoin (pathJoin a b) c = pathJoin a (pathJoin b c) := by
  simp [pathJoin, List.append_assoc]

theorem relpathOf_pathJoin (a b : String) : relpathOf (pathJoin a b) a = b := by
  have h2 : relpathOf (pathJoin a b) a = ⟨b.data⟩ := by
    simp only [relpathOf, pathJoin]
    congr 1
    calc (a.data ++ '/' :: b.data).drop (a.data.length + 1)
        = ((a.data ++ ['/']) ++ b.data).drop ((a.data ++ ['/']).length) := by simp
      _ = b.data := List.drop_left _ _
  exact h2

theorem pathJoin_ne_empty (a b : String) : pathJoin a b ≠ "" := by
  intro h
  have hd : (pathJoin a b).data = ("" : String).data := by rw [h]
  simp [pathJoin] at hd

theorem startsWithList_cons_false {x c : Char} (r t : List Char) (hne : c ≠ x) :
    startsWithList (x :: r) (c :: t) = false := by
  have hb : (x == c) = false := beq_eq_false_iff_ne.mpr fun h => hne h.symm
  simp [startsWithList, hb]

theorem listContainsSub_cons_false (x : Char) (r : List Char) (hay : List Char)
    (h : ∀ c ∈ hay, c ≠ x) : listContainsSub (x :: r) hay = false := by
  induction hay with
  | nil => rfl
  | cons c t ih =>
    have hc : c ≠ x := h c (by simp)
    have ht := ih fun d hd => h d (by simp [hd])
    simp [listContainsSub, startsWithList_cons_false r t hc, ht]

theorem no_H_in_snapshot_body (date : String) (hd : allDigits date.data = true) :
    ∀ c ∈ ("Snapshot " ++ date).data, c ≠ 'H' := by
  intro c hc
  have happ : ("Snapshot " ++ date).data = "Snapshot ".data ++ date.data := rfl
  rw [happ] at hc
  rcases List.mem_append.mp hc with h1 | h2
  · fin_cases h1 <;> decide
  · have hdig : c.isDigit = true := by
      have := List.all_eq_true.mp hd c h2
      simpa using this
    intro hEq
    rw [hEq] at hdig
    exact absurd hdig (by decide)

theorem markers_not_in_body (date : String) (hd : allDigits date.data = true) :
    containsSub ("Snapshot " ++ date) "HIST FR 8.2" = false ∧
    containsSub ("Snapshot " ++ date) "HIST FR 22" = false ∧
    containsSub ("Snapshot " ++ date) "HIST EN 10" = false :=
  ⟨listContainsSub_cons_false 'H' _ _ (no_H_in_snapshot_body date hd),
   listContainsSub_cons_false 'H' _ _ (no_H_in_snapshot_body date hd),
   listContainsSub_cons_false 'H' _ _ (no_H_in_snapshot_body date hd)⟩

theorem snapshot_loop_length_aux (c : Crawler) (dir fc today : String)
    (versions : List VersionEntry) (init : List IndexEntry × List SnapFile) :
    (versions.foldl
      (fun st it =>
        match snapshot c dir fc it.date it.href today with
        | some f => (st.1 ++ [⟨it.date, relpathOf f.path dir⟩], st.2 ++ [f])
        | none => st) init).1.length = init.1.length + versions.length := by
  induction versions generalizing init with
  | nil => simp
  | cons v t ih =>
    simp only [List.foldl_cons]
    rw [ih]
    simp [snapshot]
    omega

theorem snapshot_loop_length (c : Crawler) (dir fc today : String)
    (versions : List VersionEntry) :
    (snapshot_loop c dir fc today versions).1.length = versions.length := by
  have := snapshot_loop_length_aux c dir fc today versions ([], [])
  simpa [snapshot_loop] using this

/-! ## Claims -/

/-- C1: the claim says that opening a fresh store (version marker 0)
creates the baseline schema, applies every pending migration, and leaves
the version marker at the latest target version 4.  Evaluating `init_db`
at the failing input — a fresh store — shows the baseline is created but
the marker is left at 3: the Python local `user_version` is not re-read
after `migrate_2_to_3`, so the guard `user_version == 3` compares the
stale value 2 and `migrate_3_to_4` is skipped.  Only a second open (a
store already at 3) reaches 4. -/
theorem C1_fresh_store_reaches_3_not_4 :
    (init_db ⟨0, []⟩).version = 3 ∧
    "instruments" ∈ (init_db ⟨0, []⟩).tables ∧
    "snapshots" ∈ (init_db ⟨0, []⟩).tables ∧
    (init_db (init_db ⟨0, []⟩)).version = 4 := by
  decide

/-- C8: the three legacy spellings `20210102`, `2021-01-02` and
`2021/01/02` all normalize to the canonical key `20210102` under
`_parse_date_to_yyyymmdd`. -/
theorem C8_date_normalization :
    parse_date_to_yyyymmdd "20210102" = some "20210102" ∧
    parse_date_to_yyyymmdd "2021-01-02" = some "20210102" ∧
    parse_date_to_yyyymmdd "2021/01/02" = some "20210102" := by
  decide

/-- C10: short purely numeric dates are not skipped: every 6-digit
input normalizes to `YYYYMM01` and every 4-digit input to `YYYY0101`. -/
theorem C10_short_numeric_dates (l : List Char) (hd : allDigits l = true) :
    (l.length = 6 → parse_date_to_yyyymmdd ⟨l⟩ = some ⟨l ++ ['0', '1']⟩) ∧
    (l.length = 4 → parse_date_to_yyyymmdd ⟨l⟩ = some ⟨l ++ ['0', '1', '0', '1']⟩) := by
  constructor <;> intro hlen
  · rcases l with _ | ⟨a, _ | ⟨b, _ | ⟨c, _ | ⟨d, _ | ⟨e, _ | ⟨f, _ | ⟨g, t⟩⟩⟩⟩⟩⟩⟩ <;>
      simp_all [List.length]
    simp [parse_date_to_yyyymmdd, stripChars_of_digits _ hd, hd]
  · rcases l with _ | ⟨a, _ | ⟨b, _ | ⟨c, _ | ⟨d, _ | ⟨e, t⟩⟩⟩⟩⟩ <;> simp_all [List.length]
    simp [parse_date_to_yyyymmdd, stripChars_of_digits _ hd, hd]

/-- Witness for C10 at the concrete inputs `202106` and `2021`. -/
theorem C10_witness :
    parse_date_to_yyyymmdd ⟨['2', '0', '2', '1', '0', '6']⟩ =
        some ⟨['2', '0', '2', '1', '0', '6', '0', '1']⟩ ∧
    parse_date_to_yyyymmdd ⟨['2', '0', '2', '1']⟩ =
        some ⟨['2', '0', '2', '1', '0', '1', '0', '1']⟩ :=
  ⟨(C10_short_numeric_dates ['2', '0', '2', '1', '0', '6'] (by decide)).1 (by decide),
   (C10_short_numeric_dates ['2', '0', '2', '1'] (by decide)).2 (by decide)⟩

/-- C9: when the natural key `(instrument_id, code)` already exists,
`upsert_fragment` returns the stored surrogate id and the database value
unchanged — in particular a different `metadata_json` supplied by the
later call is discarded, never applied. -/
theorem C9_upsert_fragment_conflict_noop (db : DB) (now : String) (iid : Nat)
    (code : String) (mj : Option String) (r : FragmentRow)
    (h : db.fragments.find? (fun q => q.instrument_id == iid && q.code == code) = some r) :
    upsert_fragment db now iid code mj = (db, r.id) := by
  simp [upsert_fragment, h]

/-- Witness for C9: re-upserting fragment `(1, se:2)` of `c9_db` with new
metadata returns the stored id 1 and leaves the store untouched. -/
theorem C9_witness :
    upsert_fragment c9_db "T1" 1 "se:2" (some "mNew") = (c9_db, 1) :=
  C9_upsert_fragment_conflict_noop c9_db "T1" 1 "se:2" (some "mNew")
    ⟨1, 1, "se:2", "T0", "T0", some "m0"⟩ (by decide)

/-- C4 counterexample: re-upserting the identical content text (hence the
identical content hash) at the same `(fragment, date)` creates no new row
but does not leave every field of the stored row unchanged: the stored
`retrieved_at` moves from `T1` to `T2` although the content hash is
identical — the row is rewritten even though the hash did not differ. -/
theorem C4_counterexample :
    c4_second.snapshots.length = 1 ∧
    c4_first.snapshots.map (fun r => (r.content_hash, r.retrieved_at)) =
      [(sha256_hex "body", some "T1")] ∧
    c4_second.snapshots.map (fun r => (r.content_hash, r.retrieved_at)) =
      [(sha256_hex "body", some "T2")] := by
  decide

/-- C4 amended: re-upserting at an existing `(fragment, date)` never
creates a new row, but the conflict update is unconditional — url,
content_text, content_hash and retrieved_at always take the new call's
values, while etag, last_modified and metadata_json take them only when
supplied (COALESCE).  Content-hash equality is never consulted. -/
theorem C4_amended_upsert_snapshot_conflict (db : DB) (fid : Nat) (date : String)
    (url : Option String) (ct ch : String) (ra et lm mj : Option String) (r : SnapshotRow)
    (hr : db.snapshots.find? (fun q => q.fragment_id == fid && q.date == date) = some r) :
    (upsert_snapshot db fid date url ct ch ra et lm mj).snapshots.length =
      db.snapshots.length ∧
    (upsert_snapshot db fid date url ct ch ra et lm mj).snapshots.find?
        (fun q => q.fragment_id == fid && q.date == date) =
      some { r with
              url := url
              content_text := ct
              content_hash := ch
              retrieved_at := ra
              etag := coalesce et r.etag
              last_modified := coalesce lm r.last_modified
              metadata_json := coalesce mj r.metadata_json } := by
  have hp : (r.fragment_id == fid && r.date == date) = true := by
    simpa using List.find?_some hr
  refine ⟨by simp [upsert_snapshot, hr], ?_⟩
  simp only [upsert_snapshot, hr]
  exact find?_map_update _ hp (by simp [hr])

/-- Witness for C4 amended at the fixture: the second upsert keeps one
row and stores the updated field values. -/
theorem C4_witness :
    c4_second.snapshots.length = c4_first.snapshots.length ∧
    c4_second.snapshots.find? (fun q => q.fragment_id == 1 && q.date == "20200101") =
      some { id := 1, fragment_id := 1, date := "20200101", url := none,
             content_text := "body", content_hash := sha256_hex "body",
             retrieved_at := some "T2", etag := none, last_modified := none,
             metadata_json := none } :=
  C4_amended_upsert_snapshot_conflict c4_first 1 "20200101" none "body"
    (sha256_hex "body") (some "T2") none none none
    ⟨1, 1, "20200101", none, "body", sha256_hex "body", some "T1", none, none, none⟩
    (by decide)

/-- C5 counterexample: two upserts of the instrument `inst`, the first
with metadata `m1`, the second with source url `http://b` and metadata
`None`.  One row remains and the same id is returned, but the stored
metadata is still `m1` — it does not reflect the latest call, whose
metadata was `None` (the SQL uses `COALESCE(excluded.metadata_json,
instruments.metadata_json)`). -/
theorem C5_counterexample :
    c5_second.1.instruments.map (fun r => (r.name, r.source_url, r.metadata_json)) =
      [("inst", some "http://b", some "m1")] ∧
    c5_second.2 = c5_first.2 := by
  decide

/-- C5 amended: upserting the same name twice yields exactly one row with
that name and returns the same surrogate id both times; name and creation
timestamp are unchanged; `source_url` reflects the latest call
unconditionally, while `metadata_json` reflects the latest call only when
it supplies a value and otherwise retains the prior one. -/
theorem C5_amended_upsert_instrument_pair (db0 : DB) (n t1 t2 : String)
    (s1 s2 m1 m2 : Option String)
    (h : db0.instruments.find? (fun r => r.name == n) = none) :
    (upsert_instrument (upsert_instrument db0 t1 n s1 m1).1 t2 n s2 m2).2 =
      (upsert_instrument db0 t1 n s1 m1).2 ∧
    ((upsert_instrument (upsert_instrument db0 t1 n s1 m1).1 t2 n s2 m2).1.instruments.filter
        (fun r => r.name == n)).length = 1 ∧
    (upsert_instrument (upsert_instrument db0 t1 n s1 m1).1 t2 n s2 m2).1.instruments.find?
        (fun r => r.name == n) =
      some { id := db0.nextInstrumentId, name := n, source_url := s2,
             created_at := t1, updated_at := t2, metadata_json := coalesce m2 m1 } := by
  have hall : ∀ x ∈ db0.instruments, ¬ ((fun r : InstrumentRow => r.name == n) x = true) :=
    List.find?_eq_none.mp h
  have hfind2 :
      ((db0.instruments ++
        [({ id := db0.nextInstrumentId, name := n, source_url := s1, created_at := t1,
            updated_at := t1, metadata_json := m1 } : InstrumentRow)]).find?
        (fun r => r.name == n)) =
      some { id := db0.nextInstrumentId, name := n, source_url := s1, created_at := t1,
             updated_at := t1, metadata_json := m1 } := by
    rw [find?_append_of_none _ h]
    simp [List.find?]
  simp only [upsert_instrument, h]
  simp only [hfind2]
  simp only [List.map_append, map_update_of_none _ h]
  refine ⟨trivial, ?_, ?_⟩
  · rw [List.filter_append]
    have hnil : db0.instruments.filter (fun r => r.name == n) = [] :=
      List.filter_eq_nil_iff.mpr hall
    rw [hnil]
    simp [List.filter]
  · rw [find?_append_of_none _ h]
    simp [List.find?]

/-- Witness for C5 amended at the fixture: same id both times, one `inst`
row, source url from the second call, metadata retained from the first. -/
theorem C5_witness :
    c5_second.2 = c5_first.2 ∧
    (c5_second.1.instruments.filter (fun r => r.name == "inst")).length = 1 ∧
    c5_second.1.instruments.find? (fun r => r.name == "inst") =
      some { id := 1, name := "inst", source_url := some "http://b",
             created_at := "T1", updated_at := "T2", metadata_json := some "m1" } :=
  C5_amended_upsert_instrument_pair emptyDB "inst" "T1" "T2" (some "http://a")
    (some "http://b") (some "m1") none (by decide)

/-- C3: the claim says that after an import-history run over an out-dir,
every fragment's `"version"` link count equals the distinct dates listed
in its on-disk history index.  Evaluating `_import_history_run` at the
failing input — the two-date fixture of the repository's own test
`tests/test_cli_db_import_history.py`, with both snapshot files present —
shows the apply-mode run aborts with `NameError` on the unbound name
`base_url` (cli.py line 994) right after the first instrument upsert: no
snapshot row and no link row is ever written, so the link count is 0 while
the index lists 2 distinct dates, and the repository's own test (which
expects exit code 0 and equal counts) fails. -/
theorem C3_import_history_aborts_with_name_error :
    (import_history_run emptyDB "T0" fixtureOutDir).2 =
      some (PyError.nameError "base_url") ∧
    (import_history_run emptyDB "T0" fixtureOutDir).1.fragment_links = [] ∧
    (import_history_run emptyDB "T0" fixtureOutDir).1.snapshots = [] ∧
    (import_history_run emptyDB "T0" fixtureOutDir).1.instruments.map
      InstrumentRow.name = ["instrumentA"] ∧
    distinctDates fixtureIndex "se:1" = 2 := by
  decide

/-- C6 counterexample: a listing page whose single anchor `foo.html`
carries no 8-digit `YYYYMMDD` token and no `historique=` date query
parameter.  `enumerate_versions` on it returns the empty list — not the
history href itself as a single dateless entry, contradicting the claim's
"rather than an empty list". -/
theorem C6_counterexample :
    searchYmd "foo.html".data = none ∧
    containsSub "foo.html" "historique=" = false ∧
    enumerate_versions noDateCrawler "hist.html" = [] := by
  decide

/-- C6 amended: when the fetched listing page has no anchor carrying an
8-digit token and no anchor carrying a `historique=` query parameter,
`enumerate_versions` returns the empty list.  (The single-placeholder
behavior lives one level up: `crawl_from_fragment` injects a synthetic
entry when the whole fragment yields no versions.) -/
theorem C6_amended_enumerate_returns_empty (c : Crawler) (href : String) (page : Page)
    (hfetch : c.web (resolve_url c.base_url href) = some page)
    (hnoymd : ∀ a ∈ page.anchors, searchYmd a.href.data = none)
    (hnoq : ∀ a ∈ page.anchors, containsSub a.href "historique=" = false) :
    enumerate_versions c href = [] := by
  have h1 : (page.anchors.filterMap fun a =>
      match searchYmd a.href.data with
      | some ymd => some (⟨⟨ymd⟩, a.href⟩ : VersionEntry)
      | none => none) = [] := by
    rw [List.filterMap_eq_nil_iff]
    intro a ha
    rw [hnoymd a ha]
  have h2 : (page.anchors.filterMap fun a =>
      if containsSub a.href "historique=" then some (⟨"unknown", a.href⟩ : VersionEntry)
      else none) = [] := by
    rw [List.filterMap_eq_nil_iff]
    intro a ha
    simp [hnoq a ha]
  simp only [enumerate_versions, hfetch, h1, h2]
  cases hm : c.max_dates with
  | none => simp [dedupKeep]
  | some m => by_cases h0 : 0 ≤ m <;> simp [dedupKeep, h0]

/-- Witness for C6 amended at the concrete page `noDatePage`. -/
theorem C6_witness :
    enumerate_versions noDateCrawler "hist.html" = [] :=
  C6_amended_enumerate_returns_empty noDateCrawler "hist.html" noDatePage (by rfl)
    (by decide) (by decide)

/-- C7 counterexample: a snapshot call whose fetch fails does not return a
typed failure carrying the URL and error message — it synthesizes
placeholder HTML, wraps it in a section container, writes it to the
deterministic path and returns that path: a snapshot, not a failure. -/
theorem C7_counterexample :
    snapshot offlineCrawler "out/instA" "se:1" "20200101" "h.html" "20991231" =
      some ⟨"out/instA/history/se:1/20200101.html",
            "<div id=\"se:1\"><html><body>Snapshot 20200101</body></html></div>"⟩ := by
  decide

/-- C7 amended: on fetch failure `snapshot` never yields a failure value:
it writes the section-wrapped synthesized placeholder under the
deterministic `(fragment, date)` path and returns that path; and the crawl
loop records an entry for every enumerated version, so one failed date
never halts the crawl over the remaining dates. -/
theorem C7_amended_snapshot_never_fails (c : Crawler) (dir code date href today : String)
    (versions : List VersionEntry)
    (hfail : c.web (resolve_url c.base_url href) = none)
    (hcode : pyStartsWith code "se:" = true)
    (hdate : isYmd8 date = true) :
    snapshot c dir code date href today =
      some ⟨pathJoin (pathJoin (pathJoin dir "history") code) (date ++ ".html"),
            "<div id=\"" ++ code ++ "\">" ++
              ("<html><body>Snapshot " ++ date ++ "</body></html>") ++ "</div>"⟩ ∧
    (snapshot_loop c dir code today versions).1.length = versions.length := by
  have hd : allDigits date.data = true := by
    have := hdate
    simp only [isYmd8, Bool.and_eq_true] at this
    exact this.2
  have hm := markers_not_in_body date hd
  refine ⟨?_, snapshot_loop_length c dir code today versions⟩
  simp only [snapshot, hfail, hcode, hdate, if_true, extract_fragment_html,
    placeholderPage, List.find?_nil, hm.1, hm.2.1, hm.2.2, Bool.or_self, if_false]
  simp

/-- Witness for C7 amended at the concrete offline inputs, with one
enumerated version still producing one recorded entry. -/
theorem C7_witness :
    snapshot offlineCrawler "out/instA" "se:1" "20200101" "h.html" "20991231" =
      some ⟨pathJoin (pathJoin (pathJoin "out/instA" "history") "se:1")
              ("20200101" ++ ".html"),
            "<div id=\"" ++ "se:1" ++ "\">" ++
              ("<html><body>Snapshot " ++ "20200101" ++ "</body></html>") ++ "</div>"⟩ ∧
    (snapshot_loop offlineCrawler "out/instA" "se:1" "20991231"
      [⟨"20200101", "h.html"⟩]).1.length =
      ([⟨"20200101", "h.html"⟩] : List VersionEntry).length :=
  C7_amended_snapshot_never_fails offlineCrawler "out/instA" "se:1" "20200101" "h.html"
    "20991231" [⟨"20200101", "h.html"⟩] (by rfl) (by decide) (by decide)

/-- C2 counterexample: a crawl of a fragment with no history links yields
zero discovered versions, so the index written to `history/index.json`
holds exactly the synthetic placeholder entry; importing the crawl's
output through the post-crawl sync of `extract` then creates one Snapshot
row and one VersionLink row for that placeholder — not zero.  The
placeholder is indistinguishable from a real entry and is not excluded
from the parity count. -/
theorem C2_counterexample :
    c2_crawl.1 = [("se:1", [⟨"20250101", "history/se:1/20250101.html"⟩])] ∧
    c2_db.snapshots.map (fun r => (r.fragment_id, r.date, r.content_text)) =
      [(1, "20250101", "<div id=\"se:1\">HIST FR 8.2</div>")] ∧
    c2_db.fragment_links.map
      (fun r => (r.from_fragment_id, r.to_snapshot_id, r.link_type)) =
      [(1, 1, "version")] := by
  decide

/-- C2 amended: whenever a fragment yields zero discovered versions, the
crawl indexes the synthetic placeholder exactly like a real entry, and
the import of the crawl's output creates exactly one Snapshot row and one
VersionLink row for it — the placeholder counts as a historical version
and nothing excludes it from the parity invariant. -/
theorem C2_amended_placeholder_is_imported (c : Crawler) (dir today name t0 t1 : String)
    (fragment : Page)
    (hlinks : discover_fragment_history_links fragment = [])
    (htoday : today ≠ "") :
    (crawl_from_fragment c dir fragment today).1 =
      [("se:1", [⟨today, pathJoin "history" (pathJoin "se:1" (today ++ ".html"))⟩])] ∧
    (import_crawl_output c dir today name t0 t1 fragment).snapshots.map
      (fun r => (r.fragment_id, r.date, r.content_text)) =
      [(1, today, "<div id=\"se:1\">HIST FR 8.2</div>")] ∧
    (import_crawl_output c dir today name t0 t1 fragment).fragment_links.map
      (fun r => (r.from_fragment_id, r.to_snapshot_id, r.link_type)) =
      [(1, 1, "version")] := by
  have hcrawl : crawl_from_fragment c dir fragment today =
      ([("se:1", [⟨today, pathJoin "history" (pathJoin "se:1" (today ++ ".html"))⟩])],
       [⟨pathJoin dir (pathJoin "history" (pathJoin "se:1" (today ++ ".html"))),
         "<div id=\"se:1\">HIST FR 8.2</div>"⟩]) := by
    simp only [crawl_from_fragment, hlinks, List.foldl_nil, List.isEmpty_nil, if_true,
      pathJoin_assoc, relpathOf_pathJoin, List.nil_append]
  refine ⟨by rw [hcrawl], ?_, ?_⟩ <;>
  · simp only [import_crawl_output, hcrawl]
    simp [post_crawl_sync, sync_entry, upsert_instrument, upsert_fragment,
      upsert_snapshot, insert_fragment_version_link, emptyDB, List.find?, htoday,
      pathJoin_ne_empty]

/-- Witness for C2 amended at the fully offline concrete inputs. -/
theorem C2_witness :
    (crawl_from_fragment offlineCrawler "out/instA" emptyFragmentPage "20250101").1 =
      [("se:1", [⟨"20250101",
        pathJoin "history" (pathJoin "se:1" ("20250101" ++ ".html"))⟩])] ∧
    (import_crawl_output offlineCrawler "out/instA" "20250101" "instA" "T0" "T1"
        emptyFragmentPage).snapshots.map
      (fun r => (r.fragment_id, r.date, r.content_text)) =
      [(1, "20250101", "<div id=\"se:1\">HIST FR 8.2</div>")] ∧
    (import_crawl_output offlineCrawler "out/instA" "20250101" "instA" "T0" "T1"
        emptyFragmentPage).fragment_links.map
      (fun r => (r.from_fragment_id, r.to_snapshot_id, r.link_type)) =
      [(1, 1, "version")] :=
  C2_amended_placeholder_is_imported offlineCrawler "out/instA" "20250101" "instA"
    "T0" "T1" emptyFragmentPage (by decide) (by decide)

end LRN
